import Mathlib

/-!
Verification of the Guardian crossword downloader / SuperNote mirror.

Shallow embedding of the retention/cleanup core of the repository:
the filename codec (`generate_filename`, `get_file_date_from_name`,
`get_file_age_from_name`), the date-availability model
(`is_puzzle_available_on_day`, `get_fallback_dates`), the retention
selection (`cleanup_old_files`'s age pass and count pass), the
confirmation gate (`confirm_deletion`) and the CLI cleanup flow.

Conventions of the embedding:
* Calendar dates are `Date` records (year/month/day); `daysFromCivil`
  converts a date to an absolute day number (days since 1970-01-01,
  proleptic Gregorian — the same day arithmetic `datetime` subtraction
  performs).  "Now" is modelled as an absolute day number, so
  `age = now - daysFromCivil fileDate` models
  `(datetime.now() - file_date).days` at day granularity.
* Strings are Lean `String`s; the character-level helpers
  (`splitDash`, `replaceDropPdf`, `pyStrip`, `pyLower`) implement the
  exact Python operations `split('-')`, `replace('.pdf', '')`,
  `strip()` and `lower()` used by the source, restricted to ASCII
  (the filenames and prompt answers at issue are ASCII).
* Fallible Python code that catches its own exceptions and returns
  `None` is embedded as an `Option`-valued total function.
-/

namespace Guardian

/-! ### Dates -/

/-- A calendar date, as carried by Python's `datetime` (year 1..9999). -/
structure Date where
  year : Nat
  month : Nat
  day : Nat
deriving DecidableEq, Repr

/-- Gregorian leap-year test, as Python's `calendar`/`datetime` use. -/
def isLeap (y : Nat) : Bool :=
  (y % 4 == 0 && y % 100 != 0) || y % 400 == 0

/-- Number of days in a month of a given year. -/
def daysInMonth (y m : Nat) : Nat :=
  if m = 2 then (if isLeap y then 29 else 28)
  else if m = 4 ∨ m = 6 ∨ m = 9 ∨ m = 11 then 30
  else 31

/-- The dates `datetime(year, month, day)` accepts (`MINYEAR = 1`,
`MAXYEAR = 9999`); `strptime` raises `ValueError` outside this range. -/
def ValidDate (d : Date) : Bool :=
  1 ≤ d.year && d.year ≤ 9999 && 1 ≤ d.month && d.month ≤ 12 &&
    1 ≤ d.day && d.day ≤ daysInMonth d.year d.month

/-- Absolute day number of a date (days since 1970-01-01, proleptic
Gregorian).  This is the standard civil-calendar day count, so that
differences of `daysFromCivil` agree with Python `datetime` subtraction
in whole days. -/
def daysFromCivil (dt : Date) : Int :=
  let y : Int := if dt.month ≤ 2 then (dt.year : Int) - 1 else (dt.year : Int)
  let m : Int := dt.month
  let d : Int := dt.day
  let era : Int := (if 0 ≤ y then y else y - 399) / 400
  let yoe : Int := y - era * 400
  let doy : Int := (153 * (m + (if 2 < m then -3 else 9)) + 2) / 5 + d - 1
  let doe : Int := yoe * 365 + yoe / 4 - yoe / 100 + doy
  era * 146097 + doe - 719468

/-- Python `date.weekday()`: 0 = Monday .. 6 = Sunday, from the absolute day
number (1970-01-01 was a Thursday, weekday 3). -/
def pyWeekday (dayNum : Int) : Nat :=
  ((dayNum + 3) % 7).toNat

/-! ### Character-level helpers (Python string primitives) -/

/-- Python `s.split('-')`: cut at every `'-'`; `"".split('-') == ['']`. -/
def splitDash : List Char → List (List Char)
  | [] => [[]]
  | '-' :: rest => [] :: splitDash rest
  | c :: rest =>
    match splitDash rest with
    | [] => [[c]]
    | p :: ps => (c :: p) :: ps

/-- Python `s.replace('.pdf', '')`: delete every occurrence of `.pdf`,
scanning left to right, non-overlapping. -/
def replaceDropPdf : List Char → List Char
  | '.' :: 'p' :: 'd' :: 'f' :: rest => replaceDropPdf rest
  | c :: rest => c :: replaceDropPdf rest
  | [] => []

/-- Digit string to number: `int` of an all-digit string. -/
def digitsVal (l : List Char) : Nat :=
  l.foldl (fun a c => a * 10 + (c.toNat - 48)) 0

/-- Zero-padded 2-digit decimal rendering (`strftime('%m')` / `'%d'`). -/
def pad2 (n : Nat) : List Char :=
  [Nat.digitChar (n / 10 % 10), Nat.digitChar (n % 10)]

/-- Zero-padded 4-digit decimal rendering (`strftime('%Y')`, years ≤ 9999). -/
def pad4 (n : Nat) : List Char :=
  [Nat.digitChar (n / 1000 % 10), Nat.digitChar (n / 100 % 10),
   Nat.digitChar (n / 10 % 10), Nat.digitChar (n % 10)]

/-- Python `date.strftime('%Y%m%d')`. -/
def dateStr8 (d : Date) : List Char :=
  pad4 d.year ++ pad2 d.month ++ pad2 d.day

/-! ### Filename codec -/

/-- The pattern `FILENAME_PATTERN = "guardian-{puzzle_type}-{date_str}.pdf"`;
`GuardianDownloader.generate_filename`. -/
def generate_filename (puzzle_type : String) (date : Date) : String :=
  "guardian-" ++ puzzle_type ++ "-" ++ String.mk (dateStr8 date) ++ ".pdf"

/-- The characters of `'guardian-'`, the required filename start. -/
def guardianDash : List Char := "guardian-".data

/-- Python `datetime.strptime(date_str, '%Y%m%d')` on an 8-digit string,
with the raised-and-caught `ValueError` for invalid dates embedded as
`none`. -/
def strptimeYmd8 (s : List Char) : Option Date :=
  let d : Date := ⟨digitsVal (s.take 4), digitsVal ((s.drop 4).take 2),
                   digitsVal (s.drop 6)⟩
  if ValidDate d then some d else none

/-- The decoder `FileManager.get_file_date_from_name`: split on `'-'`, require at
least 3 parts and the `guardian-` start, strip `.pdf` from the third
part, require exactly 8 digits, parse them as `YYYYMMDD`.  Any failure
(including a `strptime` exception) yields `None`. -/
def get_file_date_from_name (filename : String) : Option Date :=
  let parts := splitDash filename.data
  if 3 ≤ parts.length ∧ guardianDash.isPrefixOf filename.data then
    let ds := replaceDropPdf (parts.getD 2 [])
    if ds.length = 8 ∧ ds.all Char.isDigit then
      strptimeYmd8 ds
    else none
  else none

/-- The age decoder `get_file_age_from_name` (identical in `FileManager` and
`SuperNoteClient`): decode the date and return `(now - file_date).days`;
`None` propagates. -/
def get_file_age_from_name (now : Int) (filename : String) : Option Int :=
  (get_file_date_from_name filename).map (fun d => now - daysFromCivil d)

/-! ### Puzzle-type registry and date availability -/

/-- One entry of `GUARDIAN_PUZZLE_TYPES`: the weekdays (0=Monday..6=Sunday)
the puzzle is published on, and its display name. -/
structure PuzzleTypeConfig where
  days : List Nat
  displayName : String
deriving DecidableEq, Repr

/-- The registry `GUARDIAN_PUZZLE_TYPES` from `config.py`, in registry order. -/
def GUARDIAN_PUZZLE_TYPES : List (String × PuzzleTypeConfig) :=
  [("quick", ⟨[0, 1, 2, 3, 4, 5], "Quick Crossword"⟩),
   ("cryptic", ⟨[0, 1, 2, 3, 4], "Cryptic Crossword"⟩),
   ("quick-cryptic", ⟨[5], "Quick-Cryptic Crossword"⟩),
   ("weekend", ⟨[5], "Weekend Crossword"⟩)]

/-- Dictionary lookup `GUARDIAN_PUZZLE_TYPES[puzzle_type]`. -/
def lookupType (puzzle_type : String) : Option PuzzleTypeConfig :=
  (GUARDIAN_PUZZLE_TYPES.find? (fun p => p.1 = puzzle_type)).map (·.2)

/-- Constant `FALLBACK_DAYS` from `config.py`. -/
def FALLBACK_DAYS : Nat := 3

/-- Constant `LOCAL_RETENTION_DAYS` from `config.py`. -/
def LOCAL_RETENTION_DAYS : Int := 30

/-- Constant `CLOUD_RETENTION_DAYS` from `config.py`. -/
def CLOUD_RETENTION_DAYS : Int := 90

/-- Constant `MAX_LOCAL_FILES` from `config.py`. -/
def MAX_LOCAL_FILES : Nat := 150

/-- Constant `MAX_CLOUD_FILES` from `config.py`. -/
def MAX_CLOUD_FILES : Nat := 400

/-- Availability `GuardianDownloader.is_puzzle_available_on_day`, over a date given by
its absolute day number: unknown types are `False` (not an error),
otherwise membership of the weekday in the type's `days`. -/
def is_puzzle_available_on_day (puzzle_type : String) (dayNum : Int) : Bool :=
  match lookupType puzzle_type with
  | none => false
  | some cfg => cfg.days.contains (pyWeekday dayNum)

/-- The loop body of `GuardianDownloader.get_fallback_dates`, with the
loop bound `range(FALLBACK_DAYS)` generalised to `n`: starting at
`current`, append the current date when available, then step one day
back, for `n` iterations. -/
def get_fallback_dates_upto (puzzle_type : String) : Nat → Int → List Int
  | 0, _ => []
  | n + 1, current =>
    (if is_puzzle_available_on_day puzzle_type current then [current] else []) ++
      get_fallback_dates_upto puzzle_type n (current - 1)

/-- The walk `GuardianDownloader.get_fallback_dates`: the loop at its source
bound `FALLBACK_DAYS`. -/
def get_fallback_dates (puzzle_type : String) (target_date : Int) : List Int :=
  get_fallback_dates_upto puzzle_type FALLBACK_DAYS target_date

/-! ### Retention selection (`cleanup_old_files`, selection phase)

`FileManager.cleanup_old_files` and `SuperNoteClient.cleanup_old_files`
run the same selection over the listed names; both compute each file's
age with `get_file_age_from_name`.  The selection is embedded with the
age computation abstracted as `ageOf : String → Option Int` and
instantiated with `get_file_age_from_name now` below; the `SuperNote`
variant's extra `filename.startswith('guardian-')` guard is subsumed
because `get_file_age_from_name` already returns `None` for such
names. -/

/-- The age pass: every file with known age strictly above the retention
limit. -/
def age_pass (ageOf : String → Option Int) (retention : Int)
    (files : List String) : List String :=
  files.filter (fun f =>
    match ageOf f with
    | some a => retention < a
    | none => false)

/-- The count-pass candidate list: `(age, name)` for every listed file
of known age, in listing order. -/
def count_candidates (ageOf : String → Option Int)
    (files : List String) : List (Int × String) :=
  files.filterMap (fun f => (ageOf f).map (fun a => (a, f)))

/-- Python string comparison `x <= y`: lexicographic by code point. -/
def charListLe : List Char → List Char → Bool
  | [], _ => true
  | _ :: _, [] => false
  | a :: as, b :: bs =>
    a.toNat < b.toNat || (a.toNat = b.toNat && charListLe as bs)

/-- Python `x <= y` on strings. -/
def pyStrLe (x y : String) : Bool := charListLe x.data y.data

/-- The order produced by Python's `sorted_files.sort(reverse=True)` on
`(age, name)` tuples: descending lexicographic. -/
def pairDesc (x y : Int × String) : Prop :=
  y.1 < x.1 ∨ (y.1 = x.1 ∧ pyStrLe y.2 x.2 = true)

instance : DecidableRel pairDesc := fun x y =>
  inferInstanceAs (Decidable (y.1 < x.1 ∨ (y.1 = x.1 ∧ pyStrLe y.2 x.2 = true)))

/-- Python `sort(reverse=True)`: the candidates in descending `(age, name)`
order (oldest first; the order is total and antisymmetric, so the
sorted list is unique and stability is irrelevant). -/
def sorted_candidates (ageOf : String → Option Int)
    (files : List String) : List (Int × String) :=
  (count_candidates ageOf files).insertionSort pairDesc

/-- The count-pass accumulation loop: append each selected name unless
it is already in the deletion list. -/
def append_missing (acc : List String) (picked : List (Int × String)) : List String :=
  picked.foldl (fun acc p => if p.2 ∈ acc then acc else acc ++ [p.2]) acc

/-- The full selection phase of `cleanup_old_files`: the age pass,
then — only when the listing exceeds `maxCount` — the oldest
`|files| - maxCount` known-age files, each appended unless already
selected. -/
def select_for_deletion (ageOf : String → Option Int) (retention : Int)
    (maxCount : Nat) (files : List String) : List String :=
  let files_to_remove := age_pass ageOf retention files
  if maxCount < files.length then
    append_missing files_to_remove
      ((sorted_candidates ageOf files).take (files.length - maxCount))
  else
    files_to_remove

/-! ### Confirmation gate (`_confirm_deletion`) -/

/-- One event at the interactive prompt: a line of input, or a
`KeyboardInterrupt` raised while waiting. -/
inductive PromptEvent where
  | line (s : String)
  | interrupt
deriving DecidableEq, Repr

/-- Python whitespace stripped by `str.strip()` (ASCII part). -/
def isPySpace (c : Char) : Bool :=
  c = ' ' ∨ c = '\t' ∨ c = '\n' ∨ c = '\x0d' ∨ c = '\x0b' ∨ c = '\x0c'

/-- Python `str.strip()`: drop leading and trailing whitespace. -/
def pyStrip (l : List Char) : List Char :=
  ((l.dropWhile isPySpace).reverse.dropWhile isPySpace).reverse

/-- Python `str.lower()` on ASCII letters. -/
def pyLower (l : List Char) : List Char :=
  l.map (fun c => if 'A' ≤ c ∧ c ≤ 'Z' then Char.ofNat (c.toNat + 32) else c)

/-- Normalization `input(...).strip().lower()` applied to one prompt answer. -/
def normalizeAnswer (s : String) : List Char :=
  pyLower (pyStrip s.data)

/-- The `while True` prompt loop of `_confirm_deletion` (identical in
`FileManager` and `SuperNoteClient`), consuming prompt events in order:
`y`/`yes` approve, `n`/`no`/empty reject, `KeyboardInterrupt` rejects,
anything else re-prompts.  `none` models the loop still blocked after
all supplied events (no decisive answer was given). -/
def confirm_loop : List PromptEvent → Option Bool
  | [] => none
  | PromptEvent.interrupt :: _ => some false
  | PromptEvent.line s :: rest =>
    let r := normalizeAnswer s
    if r = ['y'] ∨ r = ['y', 'e', 's'] then some true
    else if r = ['n'] ∨ r = ['n', 'o'] ∨ r = [] then some false
    else confirm_loop rest

/-- The gate `_confirm_deletion`: `auto_confirm` short-circuits to approval,
otherwise the prompt loop decides. -/
def confirm_deletion (auto_confirm : Bool) (events : List PromptEvent) : Option Bool :=
  if auto_confirm then some true else confirm_loop events

/-! ### Full cleanup pass (`cleanup_old_files`) -/

/-- What one `cleanup_old_files` pass did: the returned count, the
names for which a delete call was issued (in order), and the names
whose delete call succeeded. -/
structure CleanupOutcome where
  returned : Nat
  deleteCalls : List String
  deleted : List String
deriving DecidableEq, Repr

/-- The pass `cleanup_old_files` (selection, dry-run report, confirmation, then
the per-file delete loop that catches each failure and counts only
successes).  `deleteOk f` tells whether the store's delete call for `f`
succeeds; `none` models the pass blocked forever at the prompt. -/
def cleanup_old_files (ageOf : String → Option Int) (retention : Int)
    (maxCount : Nat) (auto_confirm dry_run : Bool)
    (events : List PromptEvent) (deleteOk : String → Bool)
    (files : List String) : Option CleanupOutcome :=
  if files.isEmpty then some ⟨0, [], []⟩
  else
    let files_to_remove := select_for_deletion ageOf retention maxCount files
    if files_to_remove.isEmpty then some ⟨0, [], []⟩
    else if dry_run then some ⟨files_to_remove.length, [], []⟩
    else
      match confirm_deletion auto_confirm events with
      | none => none
      | some false => some ⟨0, [], []⟩
      | some true =>
        let removed := files_to_remove.filter deleteOk
        some ⟨removed.length, files_to_remove, removed⟩

/-! ### Invalid-content sweep and CLI cleanup flow -/

/-- A local file as the CLI's cleanup flow sees it: its name and
whether its content passes the `%PDF-` header check. -/
structure LocalFile where
  name : String
  validPdf : Bool
deriving DecidableEq, Repr

/-- The sweep `FileManager.cleanup_invalid_files`: unconditionally attempt to
delete every listed file failing the PDF-header check (per-file failures
are caught); returns the success count and issues one delete call per
invalid file.  It takes no dry-run or confirmation parameter. -/
def cleanup_invalid_files (deleteOk : String → Bool)
    (files : List LocalFile) : Nat × List String :=
  let invalid := (files.filter (fun f => !f.validPdf)).map (·.name)
  ((invalid.filter deleteOk).length, invalid)

/-- The local cleanup stage of `cli.main` (both the `--cleanup` branch
and the download path): `cleanup_old_files(auto_confirm, dry_run)`
followed unconditionally by `cleanup_invalid_files()`.  Returns the
list of all delete calls the stage issued. -/
def cli_local_cleanup_delete_calls (now : Int) (auto_confirm dry_run : Bool)
    (events : List PromptEvent) (deleteOk : String → Bool)
    (files : List LocalFile) : Option (List String) :=
  (cleanup_old_files (get_file_age_from_name now) LOCAL_RETENTION_DAYS
      MAX_LOCAL_FILES auto_confirm dry_run events deleteOk
      (files.map (·.name))).map
    (fun o => o.deleteCalls ++ (cleanup_invalid_files deleteOk files).2)

/-! ### Spec-side definition for the canonical pattern (refinement target)

Modelled from the spec's words: a string "matches the canonical pattern
`guardian-{kind}-{YYYYMMDD}.pdf`" when it is the encoder's output for a
registered kind and a valid calendar date. -/
def MatchesCanonicalPattern (s : String) : Prop :=
  ∃ (t : String) (d : Date),
    (lookupType t).isSome ∧ ValidDate d = true ∧ s = generate_filename t d

/-- The validation performed by `get_file_date_from_name`, spelled out:
at least three `'-'`-separated segments, the `guardian-` start, the
third segment being exactly 8 digits once `.pdf` occurrences are
deleted, and those digits forming a valid `YYYYMMDD` calendar date. -/
def passes_decode_checks (s : String) : Prop :=
  3 ≤ (splitDash s.data).length ∧
  guardianDash.isPrefixOf s.data = true ∧
  (replaceDropPdf ((splitDash s.data).getD 2 [])).length = 8 ∧
  (replaceDropPdf ((splitDash s.data).getD 2 [])).all Char.isDigit = true ∧
  ValidDate
    ⟨digitsVal ((replaceDropPdf ((splitDash s.data).getD 2 [])).take 4),
     digitsVal (((replaceDropPdf ((splitDash s.data).getD 2 [])).drop 4).take 2),
     digitsVal ((replaceDropPdf ((splitDash s.data).getD 2 [])).drop 6)⟩ = true

instance (s : String) : Decidable (passes_decode_checks s) := by
  unfold passes_decode_checks; infer_instance

end Guardian

namespace Guardian

lemma dateStr8_length (d : Date) : (dateStr8 d).length = 8 := by
  simp [dateStr8, pad4, pad2]

lemma generate_filename_length (t : String) (d : Date) :
    (generate_filename t d).length = t.length + 22 := by
  have hmk : (String.mk (dateStr8 d)).length = 8 := dateStr8_length d
  have h9 : ("guardian-" : String).length = 9 := by decide
  have h1 : ("-" : String).length = 1 := by decide
  have h4 : (".pdf" : String).length = 4 := by decide
  simp [generate_filename, String.length_append, hmk, h9, h1, h4]
  omega

lemma lookupType_cases (t : String) (h : (lookupType t).isSome) :
    t = "quick" ∨ t = "cryptic" ∨ t = "quick-cryptic" ∨ t = "weekend" := by
  by_cases h1 : "quick" = t
  · exact Or.inl h1.symm
  by_cases h2 : "cryptic" = t
  · exact Or.inr (Or.inl h2.symm)
  by_cases h3 : "quick-cryptic" = t
  · exact Or.inr (Or.inr (Or.inl h3.symm))
  by_cases h4 : "weekend" = t
  · exact Or.inr (Or.inr (Or.inr h4.symm))
  exfalso
  simp [lookupType, GUARDIAN_PUZZLE_TYPES, List.find?, h1, h2, h3, h4] at h

/-- C1: the claim that decoding the encoder's canonical filename
recovers the date for every registered kind fails for the hyphenated
kind `quick-cryptic`: `generate_filename` produces
`guardian-quick-cryptic-20250118.pdf`, but `get_file_date_from_name`
and `get_file_age_from_name` take the third `'-'`-separated segment
(`cryptic`) as the date and return `None`, while the non-hyphenated
kinds (here `weekend`) round-trip correctly. -/
theorem claim1_roundtrip_fails_for_quick_cryptic :
    (lookupType "quick-cryptic").isSome = true ∧
    generate_filename "quick-cryptic" ⟨2025, 1, 18⟩ =
      "guardian-quick-cryptic-20250118.pdf" ∧
    get_file_date_from_name (generate_filename "quick-cryptic" ⟨2025, 1, 18⟩) =
      none ∧
    get_file_age_from_name (daysFromCivil ⟨2025, 1, 20⟩)
      (generate_filename "quick-cryptic" ⟨2025, 1, 18⟩) = none ∧
    get_file_date_from_name (generate_filename "weekend" ⟨2025, 1, 18⟩) =
      some ⟨2025, 1, 18⟩ ∧
    get_file_age_from_name (daysFromCivil ⟨2025, 1, 20⟩)
      (generate_filename "weekend" ⟨2025, 1, 18⟩) = some 2 := by
  refine ⟨by decide, by decide, by decide, by decide, by decide, by decide⟩

/-- C2 counterexample: `guardian-quick-20250101` (missing the `.pdf`
extension) does not match the canonical pattern, yet
`get_file_date_from_name` decodes it to a date rather than the `None`
sentinel, refuting the claim that every non-canonical string decodes
to `None`. -/
theorem claim2_counterexample_missing_pdf_still_decodes :
    ¬ MatchesCanonicalPattern "guardian-quick-20250101" ∧
    get_file_date_from_name "guardian-quick-20250101" = some ⟨2025, 1, 1⟩ := by
  constructor
  · rintro ⟨t, d, ht, -, heq⟩
    have hlen := congrArg String.length heq
    rw [generate_filename_length] at hlen
    have h23 : ("guardian-quick-20250101" : String).length = 23 := by decide
    rw [h23] at hlen
    rcases lookupType_cases t ht with h | h | h | h <;> subst h <;>
      revert hlen <;> decide
  · decide

/-- C2 (amended): `get_file_date_from_name` is a total function (the
code catches every exception), every date it returns is a valid
calendar date, and it returns the `None` sentinel for every string
failing its validation (fewer than three `'-'` segments, missing
`guardian-` start, third segment not exactly 8 digits after deleting
`.pdf` occurrences, or digits not a valid `YYYYMMDD` date) — but a
string passing those checks decodes even when it is not canonical. -/
theorem claim2_decode_total_and_sentinel_on_failed_checks :
    (∀ s : String, ¬ passes_decode_checks s → get_file_date_from_name s = none) ∧
    (∀ s : String, get_file_date_from_name s = none ∨
      ∃ d : Date, get_file_date_from_name s = some d ∧ ValidDate d = true) := by
  constructor
  · intro s hfail
    unfold get_file_date_from_name strptimeYmd8
    unfold passes_decode_checks at hfail
    by_cases h1 : 3 ≤ (splitDash s.data).length ∧
        guardianDash.isPrefixOf s.data = true
    · rw [if_pos h1]
      by_cases h2 : (replaceDropPdf ((splitDash s.data).getD 2 [])).length = 8 ∧
          (replaceDropPdf ((splitDash s.data).getD 2 [])).all Char.isDigit = true
      · rw [if_pos h2]
        rw [if_neg]
        intro hv
        exact hfail ⟨h1.1, h1.2, h2.1, h2.2, hv⟩
      · rw [if_neg h2]
    · rw [if_neg h1]
  · intro s
    unfold get_file_date_from_name strptimeYmd8
    by_cases h1 : 3 ≤ (splitDash s.data).length ∧
        guardianDash.isPrefixOf s.data = true
    · rw [if_pos h1]
      by_cases h2 : (replaceDropPdf ((splitDash s.data).getD 2 [])).length = 8 ∧
          (replaceDropPdf ((splitDash s.data).getD 2 [])).all Char.isDigit = true
      · rw [if_pos h2]
        by_cases h3 : ValidDate
            ⟨digitsVal ((replaceDropPdf ((splitDash s.data).getD 2 [])).take 4),
             digitsVal (((replaceDropPdf ((splitDash s.data).getD 2 [])).drop 4).take 2),
             digitsVal ((replaceDropPdf ((splitDash s.data).getD 2 [])).drop 6)⟩ = true
        · rw [if_pos h3]
          exact Or.inr ⟨_, rfl, h3⟩
        · rw [if_neg h3]
          exact Or.inl rfl
      · rw [if_neg h2]
        exact Or.inl rfl
    · rw [if_neg h1]
      exact Or.inl rfl

/-- Witness for the amended C2 at concrete inputs: a foreign name and a
wrong-length date segment both hit the `None` sentinel. -/
theorem claim2_decode_total_and_sentinel_on_failed_checks_witness :
    get_file_date_from_name "times-quick-20250101.pdf" = none ∧
    get_file_date_from_name "guardian-quick-2025.pdf" = none :=
  ⟨claim2_decode_total_and_sentinel_on_failed_checks.1
      "times-quick-20250101.pdf" (by decide),
   claim2_decode_total_and_sentinel_on_failed_checks.1
      "guardian-quick-2025.pdf" (by decide)⟩

/-! ### Order facts about the count-pass sort -/

lemma charEqOfToNatEq {a b : Char} (h : a.toNat = b.toNat) : a = b :=
  Char.eq_of_val_eq (UInt32.eq_of_toBitVec_eq (BitVec.eq_of_toNat_eq h))

lemma charListLe_total : ∀ x y : List Char,
    charListLe x y = true ∨ charListLe y x = true
  | [], _ => Or.inl rfl
  | _ :: _, [] => Or.inr rfl
  | a :: as, b :: bs => by
    simp only [charListLe, Bool.or_eq_true, Bool.and_eq_true,
      decide_eq_true_eq]
    rcases Nat.lt_trichotomy a.toNat b.toNat with h | h | h
    · exact Or.inl (Or.inl h)
    · rcases charListLe_total as bs with hr | hr
      · exact Or.inl (Or.inr ⟨h, hr⟩)
      · exact Or.inr (Or.inr ⟨h.symm, hr⟩)
    · exact Or.inr (Or.inl h)

lemma charListLe_trans : ∀ x y z : List Char,
    charListLe x y = true → charListLe y z = true → charListLe x z = true
  | [], _, _ => fun _ _ => rfl
  | _ :: _, [], _ => fun h _ => by simp [charListLe] at h
  | _ :: _, _ :: _, [] => fun _ h => by simp [charListLe] at h
  | a :: as, b :: bs, c :: cs => fun h1 h2 => by
    simp only [charListLe, Bool.or_eq_true, Bool.and_eq_true,
      decide_eq_true_eq] at h1 h2 ⊢
    rcases h1 with h1 | ⟨h1e, h1r⟩ <;> rcases h2 with h2 | ⟨h2e, h2r⟩
    · exact Or.inl (by omega)
    · exact Or.inl (by omega)
    · exact Or.inl (by omega)
    · exact Or.inr ⟨by omega, charListLe_trans as bs cs h1r h2r⟩

lemma charListLe_antisymm : ∀ x y : List Char,
    charListLe x y = true → charListLe y x = true → x = y
  | [], [] => fun _ _ => rfl
  | [], _ :: _ => fun _ h => by simp [charListLe] at h
  | _ :: _, [] => fun h _ => by simp [charListLe] at h
  | a :: as, b :: bs => fun h1 h2 => by
    simp only [charListLe, Bool.or_eq_true, Bool.and_eq_true,
      decide_eq_true_eq] at h1 h2
    rcases h1 with h1 | ⟨h1e, h1r⟩ <;> rcases h2 with h2 | ⟨h2e, h2r⟩
    · omega
    · omega
    · omega
    · rw [charEqOfToNatEq h1e, charListLe_antisymm as bs h1r h2r]

lemma pyStrLe_antisymm {x y : String} (h1 : pyStrLe x y = true)
    (h2 : pyStrLe y x = true) : x = y := by
  cases x; cases y
  exact congrArg String.mk (charListLe_antisymm _ _ h1 h2)

instance : IsTotal (Int × String) pairDesc := ⟨by
  intro a b
  unfold pairDesc
  rcases lt_trichotomy a.1 b.1 with h | h | h
  · exact Or.inr (Or.inl h)
  · rcases charListLe_total b.2.data a.2.data with hs | hs
    · exact Or.inl (Or.inr ⟨h.symm, hs⟩)
    · exact Or.inr (Or.inr ⟨h, hs⟩)
  · exact Or.inl (Or.inl h)⟩

instance : IsTrans (Int × String) pairDesc := ⟨by
  intro a b c hab hbc
  unfold pairDesc at *
  rcases hab with hab | ⟨hab1, hab2⟩ <;> rcases hbc with hbc | ⟨hbc1, hbc2⟩
  · exact Or.inl (lt_trans hbc hab)
  · exact Or.inl (hbc1 ▸ hab)
  · exact Or.inl (hab1 ▸ hbc)
  · exact Or.inr ⟨hbc1.trans hab1, charListLe_trans _ _ _ hbc2 hab2⟩⟩

instance : IsAntisymm (Int × String) pairDesc := ⟨by
  intro a b hab hba
  unfold pairDesc at *
  rcases hab with hab | ⟨hab1, hab2⟩ <;> rcases hba with hba | ⟨hba1, hba2⟩
  · exact absurd hab (lt_asymm hba)
  · exact absurd hab (hba1 ▸ lt_irrefl _)
  · exact absurd hba (hab1 ▸ lt_irrefl _)
  · exact Prod.ext hab1.symm (pyStrLe_antisymm hba2 hab2)⟩

/-! ### Structural lemmas about the selection phase -/

lemma append_missing_cons (acc : List String) (p : Int × String)
    (l : List (Int × String)) :
    append_missing acc (p :: l) =
      append_missing (if p.2 ∈ acc then acc else acc ++ [p.2]) l := rfl

lemma mem_append_missing {x : String} (acc : List String)
    (l : List (Int × String)) :
    x ∈ append_missing acc l ↔ x ∈ acc ∨ x ∈ l.map Prod.snd := by
  induction l generalizing acc with
  | nil => simp [append_missing]
  | cons p rest ih =>
    rw [append_missing_cons, ih]
    by_cases hm : p.2 ∈ acc
    · rw [if_pos hm]
      simp only [List.map_cons, List.mem_cons]
      constructor
      · rintro (h | h)
        · exact Or.inl h
        · exact Or.inr (Or.inr h)
      · rintro (h | h | h)
        · exact Or.inl h
        · exact Or.inl (h ▸ hm)
        · exact Or.inr h
    · rw [if_neg hm]
      simp only [List.mem_append, List.mem_singleton, List.map_cons,
        List.mem_cons]
      tauto

lemma append_missing_eq_filter (acc : List String) (l : List (Int × String))
    (h : (l.map Prod.snd).Nodup) :
    append_missing acc l =
      acc ++ (l.map Prod.snd).filter (fun f => f ∉ acc) := by
  induction l generalizing acc with
  | nil => simp [append_missing]
  | cons p rest ih =>
    simp only [List.map_cons, List.nodup_cons] at h
    rw [append_missing_cons]
    by_cases hm : p.2 ∈ acc
    · rw [if_pos hm, ih _ h.2]
      simp [List.filter_cons, hm]
    · rw [if_neg hm, ih _ h.2]
      rw [List.map_cons, List.filter_cons, if_pos (by simpa using hm)]
      rw [List.append_assoc, List.singleton_append]
      congr 1
      congr 1
      apply List.filter_congr
      intro x hx
      have hxp : x ≠ p.2 := fun he => h.1 (he ▸ hx)
      exact decide_eq_decide.mpr (by simp [List.mem_append, hxp])

lemma append_missing_nodup (acc : List String) (l : List (Int × String))
    (h : acc.Nodup) : (append_missing acc l).Nodup := by
  induction l generalizing acc with
  | nil => exact h
  | cons p rest ih =>
    rw [append_missing_cons]
    by_cases hm : p.2 ∈ acc
    · rw [if_pos hm]; exact ih _ h
    · rw [if_neg hm]
      refine ih _ ?_
      simp [List.nodup_append, h, hm]

lemma count_candidates_cons (ageOf : String → Option Int) (f : String)
    (rest : List String) :
    count_candidates ageOf (f :: rest) =
      match ageOf f with
      | none => count_candidates ageOf rest
      | some a => (a, f) :: count_candidates ageOf rest := by
  unfold count_candidates
  rw [List.filterMap_cons]
  cases ageOf f <;> rfl

lemma count_candidates_names_sublist (ageOf : String → Option Int)
    (files : List String) :
    ((count_candidates ageOf files).map Prod.snd).Sublist files := by
  induction files with
  | nil => simp [count_candidates]
  | cons f rest ih =>
    rw [count_candidates_cons]
    cases hf : ageOf f with
    | none => exact ih.cons f
    | some a =>
      rw [List.map_cons]
      exact ih.cons₂ f

lemma mem_count_candidates_names {ageOf : String → Option Int}
    {files : List String} {f : String}
    (h : f ∈ (count_candidates ageOf files).map Prod.snd) :
    ∃ a, ageOf f = some a := by
  rcases List.mem_map.mp h with ⟨p, hp, hpf⟩
  rcases List.mem_filterMap.mp hp with ⟨x, -, hx⟩
  cases hxa : ageOf x with
  | none => rw [hxa] at hx; simp at hx
  | some a =>
    rw [hxa] at hx
    have hx2 : (a, x) = p := by simpa using hx
    subst hx2
    simp only at hpf
    subst hpf
    exact ⟨a, hxa⟩

lemma mem_age_pass {ageOf : String → Option Int} {ret : Int}
    {files : List String} {f : String}
    (h : f ∈ age_pass ageOf ret files) :
    ∃ a, ageOf f = some a ∧ ret < a := by
  rcases List.mem_filter.mp h with ⟨-, hc⟩
  cases hfa : ageOf f with
  | none => rw [hfa] at hc; simp at hc
  | some a =>
    rw [hfa] at hc
    simp only [decide_eq_true_eq] at hc
    exact ⟨a, rfl, hc⟩

lemma sorted_candidates_perm (ageOf : String → Option Int)
    (files : List String) :
    (sorted_candidates ageOf files).Perm (count_candidates ageOf files) :=
  List.perm_insertionSort pairDesc _

lemma select_mem_cases {ageOf : String → Option Int} {ret : Int}
    {maxC : Nat} {files : List String} {f : String}
    (h : f ∈ select_for_deletion ageOf ret maxC files) :
    f ∈ age_pass ageOf ret files ∨
      f ∈ (count_candidates ageOf files).map Prod.snd := by
  unfold select_for_deletion at h
  by_cases hc : maxC < files.length
  · rw [if_pos hc] at h
    rcases (mem_append_missing _ _).mp h with h | h
    · exact Or.inl h
    · right
      rw [List.map_take] at h
      have hs : f ∈ (sorted_candidates ageOf files).map Prod.snd :=
        List.mem_of_mem_take h
      exact ((sorted_candidates_perm ageOf files).map Prod.snd).subset hs
  · rw [if_neg hc] at h
    exact Or.inl h

lemma select_nil (ageOf : String → Option Int) (ret : Int) (maxC : Nat) :
    select_for_deletion ageOf ret maxC [] = [] := by
  simp [select_for_deletion, age_pass]

lemma sorted_candidates_names_nodup (ageOf : String → Option Int)
    {files : List String} (hnd : files.Nodup) :
    ((sorted_candidates ageOf files).map Prod.snd).Nodup := by
  have hcn : ((count_candidates ageOf files).map Prod.snd).Nodup :=
    hnd.sublist (count_candidates_names_sublist ageOf files)
  exact (((sorted_candidates_perm ageOf files).map Prod.snd).nodup_iff).mpr hcn

lemma select_nodup {ageOf : String → Option Int} {ret : Int} {maxC : Nat}
    {files : List String} (hnd : files.Nodup) :
    (select_for_deletion ageOf ret maxC files).Nodup := by
  have hap : (age_pass ageOf ret files).Nodup := hnd.filter _
  unfold select_for_deletion
  by_cases hc : maxC < files.length
  · rw [if_pos hc]
    exact append_missing_nodup _ _ hap
  · rw [if_neg hc]
    exact hap

/-- C3: whenever the listing exceeds `max_count`, the known-age files
are ranked oldest-first (the candidate list is sorted by descending
`(age, name)`), and the deletion list is exactly the age pass followed
by the oldest `|files| - max_count` ranked files not already selected,
with no duplicate names; instantiated at the source's age function
`get_file_age_from_name`.  The second conjunct is the claim's example:
ages 5, 4, 3 with `max_age_days = 100`, `max_count = 2` select only the
age-5 file. -/
theorem claim3_count_pass_selects_oldest_excess :
    (∀ (now retention : Int) (maxCount : Nat) (files : List String),
      files.Nodup → maxCount < files.length →
      (sorted_candidates (get_file_age_from_name now) files).Sorted pairDesc ∧
      select_for_deletion (get_file_age_from_name now) retention maxCount files =
        age_pass (get_file_age_from_name now) retention files ++
          (((sorted_candidates (get_file_age_from_name now) files).take
              (files.length - maxCount)).map Prod.snd).filter
            (fun f => f ∉ age_pass (get_file_age_from_name now) retention files) ∧
      (select_for_deletion (get_file_age_from_name now) retention maxCount
          files).Nodup) ∧
    select_for_deletion
        (get_file_age_from_name (daysFromCivil ⟨2025, 1, 20⟩)) 100 2
        ["guardian-quick-20250115.pdf", "guardian-quick-20250116.pdf",
         "guardian-quick-20250117.pdf"] = ["guardian-quick-20250115.pdf"] := by
  constructor
  · intro now retention maxCount files hnd hc
    refine ⟨List.sorted_insertionSort pairDesc _, ?_, select_nodup hnd⟩
    have htn : (((sorted_candidates (get_file_age_from_name now) files).take
        (files.length - maxCount)).map Prod.snd).Nodup := by
      rw [List.map_take]
      exact (List.take_sublist _ _).nodup
        (sorted_candidates_names_nodup _ hnd)
    unfold select_for_deletion
    rw [if_pos hc]
    exact append_missing_eq_filter _ _ htn
  · decide

/-- Witness for C3 at a concrete input: four listed files, limit 2. -/
theorem claim3_count_pass_selects_oldest_excess_witness :
    select_for_deletion
        (get_file_age_from_name (daysFromCivil ⟨2025, 1, 20⟩)) 100 2
        ["guardian-quick-20250115.pdf", "guardian-quick-20250116.pdf",
         "guardian-quick-20250117.pdf", "guardian-quick-20250118.pdf"] =
      age_pass (get_file_age_from_name (daysFromCivil ⟨2025, 1, 20⟩)) 100
          ["guardian-quick-20250115.pdf", "guardian-quick-20250116.pdf",
           "guardian-quick-20250117.pdf", "guardian-quick-20250118.pdf"] ++
        (((sorted_candidates (get_file_age_from_name (daysFromCivil ⟨2025, 1, 20⟩))
            ["guardian-quick-20250115.pdf", "guardian-quick-20250116.pdf",
             "guardian-quick-20250117.pdf", "guardian-quick-20250118.pdf"]).take 2).map
          Prod.snd).filter
          (fun f => f ∉ age_pass (get_file_age_from_name (daysFromCivil ⟨2025, 1, 20⟩)) 100
            ["guardian-quick-20250115.pdf", "guardian-quick-20250116.pdf",
             "guardian-quick-20250117.pdf", "guardian-quick-20250118.pdf"]) :=
  ((claim3_count_pass_selects_oldest_excess.1 (daysFromCivil ⟨2025, 1, 20⟩)
      100 2
      ["guardian-quick-20250115.pdf", "guardian-quick-20250116.pdf",
       "guardian-quick-20250117.pdf", "guardian-quick-20250118.pdf"]
      (by decide) (by decide)).2).1

/-- C4: no file of unknown age is ever selected, by either pass, for
any configuration of retention limit and count cap and any listing. -/
theorem claim4_unknown_age_never_selected
    (now retention : Int) (maxCount : Nat) (files : List String) (f : String)
    (h : f ∈ select_for_deletion (get_file_age_from_name now) retention
        maxCount files) :
    ∃ a, get_file_age_from_name now f = some a := by
  rcases select_mem_cases h with h | h
  · rcases mem_age_pass h with ⟨a, ha, -⟩
    exact ⟨a, ha⟩
  · exact mem_count_candidates_names h

/-- Witness for C4: the selected file of the C3 example has a known age
(5 days). -/
theorem claim4_unknown_age_never_selected_witness :
    ∃ a, get_file_age_from_name (daysFromCivil ⟨2025, 1, 20⟩)
        "guardian-quick-20250115.pdf" = some a :=
  claim4_unknown_age_never_selected (daysFromCivil ⟨2025, 1, 20⟩) 100 2
    ["guardian-quick-20250115.pdf", "guardian-quick-20250116.pdf",
     "guardian-quick-20250117.pdf"] "guardian-quick-20250115.pdf"
    (by decide)

lemma sorted_candidates_eq_of_perm (ageOf : String → Option Int)
    {l₁ l₂ : List String} (hp : l₁.Perm l₂) :
    sorted_candidates ageOf l₁ = sorted_candidates ageOf l₂ :=
  List.eq_of_perm_of_sorted
    ((sorted_candidates_perm ageOf l₁).trans
      ((hp.filterMap _).trans (sorted_candidates_perm ageOf l₂).symm))
    (List.sorted_insertionSort pairDesc _)
    (List.sorted_insertionSort pairDesc _)

/-- C10: the deletion set is a deterministic function of the listed
`(age, name)` data: the count pass sorts by descending `(age, name)`
(so equal ages tie-break by descending name), and two listings that are
permutations of each other select exactly the same files.  The closed
conjuncts show the descending-name tie-break on two equal-age files and
the same selection from the reversed listing. -/
theorem claim10_selection_order_independent :
    (∀ (now retention : Int) (maxCount : Nat) (l₁ l₂ : List String),
      l₁.Perm l₂ →
      ∀ f : String,
        f ∈ select_for_deletion (get_file_age_from_name now) retention
            maxCount l₁ ↔
        f ∈ select_for_deletion (get_file_age_from_name now) retention
            maxCount l₂) ∧
    select_for_deletion
        (get_file_age_from_name (daysFromCivil ⟨2025, 1, 20⟩)) 100 1
        ["guardian-cryptic-20250115.pdf", "guardian-quick-20250115.pdf"] =
      ["guardian-quick-20250115.pdf"] ∧
    select_for_deletion
        (get_file_age_from_name (daysFromCivil ⟨2025, 1, 20⟩)) 100 1
        ["guardian-quick-20250115.pdf", "guardian-cryptic-20250115.pdf"] =
      ["guardian-quick-20250115.pdf"] := by
  refine ⟨?_, by decide, by decide⟩
  intro now retention maxCount l₁ l₂ hp f
  have hlen : l₁.length = l₂.length := hp.length_eq
  have hse : sorted_candidates (get_file_age_from_name now) l₁ =
      sorted_candidates (get_file_age_from_name now) l₂ :=
    sorted_candidates_eq_of_perm _ hp
  have hap : ∀ g : String,
      g ∈ age_pass (get_file_age_from_name now) retention l₁ ↔
      g ∈ age_pass (get_file_age_from_name now) retention l₂ :=
    fun g => (hp.filter _).mem_iff
  unfold select_for_deletion
  by_cases hc : maxCount < l₁.length
  · rw [if_pos hc, if_pos (hlen ▸ hc)]
    rw [mem_append_missing, mem_append_missing, hse, hlen]
    rw [hap f]
  · rw [if_neg hc, if_neg (hlen ▸ hc)]
    exact hap f

/-- Witness for C10: the same two-file listing in its two orders
selects the same set. -/
theorem claim10_selection_order_independent_witness :
    ("guardian-quick-20250115.pdf" ∈ select_for_deletion
        (get_file_age_from_name (daysFromCivil ⟨2025, 1, 20⟩)) 100 1
        ["guardian-cryptic-20250115.pdf", "guardian-quick-20250115.pdf"]) ↔
    ("guardian-quick-20250115.pdf" ∈ select_for_deletion
        (get_file_age_from_name (daysFromCivil ⟨2025, 1, 20⟩)) 100 1
        ["guardian-quick-20250115.pdf", "guardian-cryptic-20250115.pdf"]) :=
  claim10_selection_order_independent.1 (daysFromCivil ⟨2025, 1, 20⟩) 100 1
    ["guardian-cryptic-20250115.pdf", "guardian-quick-20250115.pdf"]
    ["guardian-quick-20250115.pdf", "guardian-cryptic-20250115.pdf"]
    (List.Perm.swap _ _ _) "guardian-quick-20250115.pdf"

/-! ### Fallback-date walk -/

lemma mem_get_fallback_dates_upto (t : String) :
    ∀ (n : Nat) (target d : Int),
      d ∈ get_fallback_dates_upto t n target ↔
        target - n < d ∧ d ≤ target ∧
          is_puzzle_available_on_day t d = true := by
  intro n
  induction n with
  | zero =>
    intro target d
    simp only [get_fallback_dates_upto, List.not_mem_nil, false_iff]
    rintro ⟨h1, h2, -⟩
    simp only [Nat.cast_zero, sub_zero] at h1
    omega
  | succ n ih =>
    intro target d
    by_cases ha : is_puzzle_available_on_day t target = true
    · simp only [get_fallback_dates_upto, ha, if_true, List.singleton_append,
        List.mem_cons, ih (target - 1) d]
      constructor
      · rintro (rfl | ⟨h1, h2, h3⟩)
        · exact ⟨by push_cast; omega, le_refl _, ha⟩
        · exact ⟨by push_cast at h1 ⊢; omega, by omega, h3⟩
      · rintro ⟨h1, h2, h3⟩
        by_cases hd : d = target
        · exact Or.inl hd
        · exact Or.inr ⟨by push_cast at h1 ⊢; omega, by omega, h3⟩
    · have haf : is_puzzle_available_on_day t target = false := by
        revert ha; cases is_puzzle_available_on_day t target <;> simp
      simp only [get_fallback_dates_upto, haf, Bool.false_eq_true, if_false,
        List.nil_append, ih (target - 1) d]
      constructor
      · rintro ⟨h1, h2, h3⟩
        exact ⟨by push_cast at h1 ⊢; omega, by omega, h3⟩
      · rintro ⟨h1, h2, h3⟩
        have hd : d ≠ target := fun he => ha (he ▸ h3)
        exact ⟨by push_cast at h1 ⊢; omega, by omega, h3⟩

lemma get_fallback_dates_upto_length (t : String) :
    ∀ (n : Nat) (target : Int),
      (get_fallback_dates_upto t n target).length ≤ n := by
  intro n
  induction n with
  | zero => intro target; simp [get_fallback_dates_upto]
  | succ n ih =>
    intro target
    simp only [get_fallback_dates_upto, List.length_append]
    have := ih (target - 1)
    by_cases ha : is_puzzle_available_on_day t target = true <;>
      simp [ha] <;> omega

lemma get_fallback_dates_upto_sorted (t : String) :
    ∀ (n : Nat) (target : Int),
      (get_fallback_dates_upto t n target).Pairwise (· > ·) := by
  intro n
  induction n with
  | zero => intro target; simp [get_fallback_dates_upto]
  | succ n ih =>
    intro target
    simp only [get_fallback_dates_upto]
    rw [List.pairwise_append]
    refine ⟨?_, ih (target - 1), ?_⟩
    · by_cases ha : is_puzzle_available_on_day t target = true <;> simp [ha]
    · intro a hma b hmb
      have hb := (mem_get_fallback_dates_upto t n (target - 1) b).mp hmb
      by_cases ha : is_puzzle_available_on_day t target = true
      · rw [if_pos ha] at hma
        simp only [List.mem_singleton] at hma
        subst hma
        omega
      · rw [if_neg ha] at hma
        simp at hma

/-- C5: the fallback walk starts at the target date, steps one day back
at a time for exactly `n` iterations (the target date being the first
step), keeps a date iff `is_puzzle_available_on_day` holds for it, so
its output has length at most `n`, is strictly descending (most recent
first), contains exactly the available dates of the window
`(target - n, target]`, and is empty — not an error — when no date in
the window is available; `get_fallback_dates` is this walk at the
source's bound `FALLBACK_DAYS = 3`. -/
theorem claim5_fallback_walk (t : String) (n : Nat) (target : Int) :
    (get_fallback_dates_upto t n target).length ≤ n ∧
    (get_fallback_dates_upto t n target).Pairwise (· > ·) ∧
    (∀ d : Int, d ∈ get_fallback_dates_upto t n target ↔
      target - n < d ∧ d ≤ target ∧
        is_puzzle_available_on_day t d = true) ∧
    get_fallback_dates t target = get_fallback_dates_upto t FALLBACK_DAYS target :=
  ⟨get_fallback_dates_upto_length t n target,
   get_fallback_dates_upto_sorted t n target,
   fun d => mem_get_fallback_dates_upto t n target d,
   rfl⟩

/-! ### Cleanup pass: dry run, confirmation, delete loop -/

lemma bool_eq_false_of_not_true {b : Bool} (h : ¬ b = true) : b = false := by
  cases b
  · rfl
  · exact absurd rfl h

/-- C6: in dry-run mode a cleanup pass with a non-empty computed
deletion set issues no delete call at all and returns exactly the size
of the computed deletion set, as if deletion had happened. -/
theorem claim6_dry_run_deletes_nothing_reports_size
    (ageOf : String → Option Int) (ret : Int) (maxC : Nat) (auto : Bool)
    (events : List PromptEvent) (deleteOk : String → Bool)
    (files : List String)
    (h : select_for_deletion ageOf ret maxC files ≠ []) :
    cleanup_old_files ageOf ret maxC auto true events deleteOk files =
      some ⟨(select_for_deletion ageOf ret maxC files).length, [], []⟩ := by
  have hne : files.isEmpty = false := by
    cases files
    · exact absurd (select_nil _ _ _) h
    · rfl
  have hse : (select_for_deletion ageOf ret maxC files).isEmpty = false := by
    cases hsel : select_for_deletion ageOf ret maxC files
    · exact absurd hsel h
    · rfl
  simp [cleanup_old_files, hne, hse]

/-- Witness for C6: concrete three-file listing whose deletion set is
the single oldest file; the dry-run pass returns 1 and deletes
nothing. -/
theorem claim6_dry_run_deletes_nothing_reports_size_witness :
    cleanup_old_files
        (get_file_age_from_name (daysFromCivil ⟨2025, 1, 20⟩)) 100 2 false true
        [] (fun _ => true)
        ["guardian-quick-20250115.pdf", "guardian-quick-20250116.pdf",
         "guardian-quick-20250117.pdf"] =
      some ⟨(select_for_deletion
          (get_file_age_from_name (daysFromCivil ⟨2025, 1, 20⟩)) 100 2
          ["guardian-quick-20250115.pdf", "guardian-quick-20250116.pdf",
           "guardian-quick-20250117.pdf"]).length, [], []⟩ :=
  claim6_dry_run_deletes_nothing_reports_size _ 100 2 false [] _ _ (by decide)

/-- C7: the confirmation prompt accepts case-insensitive `y`/`yes`
(after stripping), rejects `n`/`no`/empty input, re-prompts on any
other input, converts a keyboard interrupt into a rejection, and a
rejected (or interrupted) pass completes with zero deletions and no
delete call. -/
theorem claim7_confirmation_gate :
    (∀ (s : String) (rest : List PromptEvent),
      normalizeAnswer s = ['y'] ∨ normalizeAnswer s = ['y', 'e', 's'] →
      confirm_loop (PromptEvent.line s :: rest) = some true) ∧
    (∀ (s : String) (rest : List PromptEvent),
      normalizeAnswer s = ['n'] ∨ normalizeAnswer s = ['n', 'o'] ∨
        normalizeAnswer s = [] →
      confirm_loop (PromptEvent.line s :: rest) = some false) ∧
    (∀ (s : String) (rest : List PromptEvent),
      ¬(normalizeAnswer s = ['y'] ∨ normalizeAnswer s = ['y', 'e', 's']) →
      ¬(normalizeAnswer s = ['n'] ∨ normalizeAnswer s = ['n', 'o'] ∨
        normalizeAnswer s = []) →
      confirm_loop (PromptEvent.line s :: rest) = confirm_loop rest) ∧
    (∀ rest : List PromptEvent,
      confirm_loop (PromptEvent.interrupt :: rest) = some false) ∧
    (∀ (ageOf : String → Option Int) (ret : Int) (maxC : Nat) (auto : Bool)
       (events : List PromptEvent) (deleteOk : String → Bool)
       (files : List String),
      confirm_deletion auto events = some false →
      cleanup_old_files ageOf ret maxC auto false events deleteOk files =
        some ⟨0, [], []⟩) := by
  refine ⟨?_, ?_, ?_, ?_, ?_⟩
  · intro s rest hy
    unfold confirm_loop
    rw [if_pos hy]
  · intro s rest hn
    unfold confirm_loop
    rw [if_neg ?_, if_pos hn]
    rintro (hy | hy) <;> rcases hn with hn | hn | hn <;> simp [hy] at hn
  · intro s rest hy hn
    simp only [confirm_loop]
    rw [if_neg hy, if_neg hn]
  · intro rest
    rfl
  · intro ageOf ret maxC auto events deleteOk files hconf
    by_cases h1 : files.isEmpty = true
    · simp [cleanup_old_files, h1]
    · by_cases h2 : (select_for_deletion ageOf ret maxC files).isEmpty = true
      · simp [cleanup_old_files, bool_eq_false_of_not_true h1, h2]
      · simp [cleanup_old_files, bool_eq_false_of_not_true h1,
          bool_eq_false_of_not_true h2, hconf]

/-- Witness for C7 at concrete inputs: `" YES "` approves, an invalid
answer falls through to a later `"N"` which rejects, an interrupt
rejects, and a rejected pass deletes nothing. -/
theorem claim7_confirmation_gate_witness :
    confirm_loop [PromptEvent.line " YES "] = some true ∧
    confirm_loop [PromptEvent.line "maybe", PromptEvent.line "N"] =
      confirm_loop [PromptEvent.line "N"] ∧
    confirm_loop [PromptEvent.line "N"] = some false ∧
    confirm_loop [PromptEvent.interrupt] = some false ∧
    cleanup_old_files
        (get_file_age_from_name (daysFromCivil ⟨2025, 1, 20⟩)) 100 2 false
        false [PromptEvent.line "n"] (fun _ => true)
        ["guardian-quick-20250115.pdf", "guardian-quick-20250116.pdf",
         "guardian-quick-20250117.pdf"] = some ⟨0, [], []⟩ :=
  ⟨claim7_confirmation_gate.1 " YES " [] (by decide),
   claim7_confirmation_gate.2.2.1 "maybe" [PromptEvent.line "N"]
     (by decide) (by decide),
   claim7_confirmation_gate.2.1 "N" [] (by decide),
   claim7_confirmation_gate.2.2.2.1 [],
   claim7_confirmation_gate.2.2.2.2
     (get_file_age_from_name (daysFromCivil ⟨2025, 1, 20⟩)) 100 2 false
     [PromptEvent.line "n"] (fun _ => true)
     ["guardian-quick-20250115.pdf", "guardian-quick-20250116.pdf",
      "guardian-quick-20250117.pdf"] (by decide)⟩

/-- C8: once a cleanup pass is approved, a delete call is issued for
every selected name regardless of individual failures (the per-file
exception is caught and the loop continues), and the returned count is
exactly the number of delete calls that succeeded. -/
theorem claim8_delete_failures_do_not_abort
    (ageOf : String → Option Int) (ret : Int) (maxC : Nat) (auto : Bool)
    (events : List PromptEvent) (deleteOk : String → Bool)
    (files : List String)
    (h : select_for_deletion ageOf ret maxC files ≠ [])
    (hc : confirm_deletion auto events = some true) :
    cleanup_old_files ageOf ret maxC auto false events deleteOk files =
      some ⟨((select_for_deletion ageOf ret maxC files).filter deleteOk).length,
            select_for_deletion ageOf ret maxC files,
            (select_for_deletion ageOf ret maxC files).filter deleteOk⟩ := by
  have hne : files.isEmpty = false := by
    cases files
    · exact absurd (select_nil _ _ _) h
    · rfl
  have hse : (select_for_deletion ageOf ret maxC files).isEmpty = false := by
    cases hsel : select_for_deletion ageOf ret maxC files
    · exact absurd hsel h
    · rfl
  simp [cleanup_old_files, hne, hse, hc]

/-- Witness for C8: the delete of the middle file fails; the other two
selected files are still attempted and the count is 2 of 3. -/
theorem claim8_delete_failures_do_not_abort_witness :
    cleanup_old_files
        (get_file_age_from_name (daysFromCivil ⟨2025, 1, 20⟩)) 2 150 true
        false [] (fun f => !(f == "guardian-quick-20250116.pdf"))
        ["guardian-quick-20250115.pdf", "guardian-quick-20250116.pdf",
         "guardian-quick-20250117.pdf"] =
      some ⟨((select_for_deletion
            (get_file_age_from_name (daysFromCivil ⟨2025, 1, 20⟩)) 2 150
            ["guardian-quick-20250115.pdf", "guardian-quick-20250116.pdf",
             "guardian-quick-20250117.pdf"]).filter
          (fun f => !(f == "guardian-quick-20250116.pdf"))).length,
        select_for_deletion
          (get_file_age_from_name (daysFromCivil ⟨2025, 1, 20⟩)) 2 150
          ["guardian-quick-20250115.pdf", "guardian-quick-20250116.pdf",
           "guardian-quick-20250117.pdf"],
        (select_for_deletion
            (get_file_age_from_name (daysFromCivil ⟨2025, 1, 20⟩)) 2 150
            ["guardian-quick-20250115.pdf", "guardian-quick-20250116.pdf",
             "guardian-quick-20250117.pdf"]).filter
          (fun f => !(f == "guardian-quick-20250116.pdf"))⟩ :=
  claim8_delete_failures_do_not_abort _ 2 150 true [] _ _ (by decide) rfl

lemma cleanup_dry_run_shape (ageOf : String → Option Int) (ret : Int)
    (maxC : Nat) (auto : Bool) (events : List PromptEvent)
    (deleteOk : String → Bool) (files : List String) :
    ∃ n, cleanup_old_files ageOf ret maxC auto true events deleteOk files =
      some ⟨n, [], []⟩ := by
  by_cases h1 : files.isEmpty = true
  · exact ⟨0, by simp [cleanup_old_files, h1]⟩
  · by_cases h2 : (select_for_deletion ageOf ret maxC files).isEmpty = true
    · exact ⟨0, by simp [cleanup_old_files, bool_eq_false_of_not_true h1, h2]⟩
    · exact ⟨(select_for_deletion ageOf ret maxC files).length,
        by simp [cleanup_old_files, bool_eq_false_of_not_true h1,
          bool_eq_false_of_not_true h2]⟩

/-- C9: with `--dry-run` the CLI's local cleanup stage suppresses only
the age/count retention pass; `cleanup_invalid_files` runs
unconditionally, so the stage's delete calls are exactly the files
failing the PDF-header check — in particular a dry-run invocation over
a listing with an invalid file still issues a delete call for it. -/
theorem claim9_dry_run_still_sweeps_invalid_files :
    (∀ (now : Int) (auto : Bool) (events : List PromptEvent)
       (deleteOk : String → Bool) (files : List LocalFile),
      cli_local_cleanup_delete_calls now auto true events deleteOk files =
        some ((files.filter (fun f => !f.validPdf)).map (·.name))) ∧
    cli_local_cleanup_delete_calls 0 false true [] (fun _ => true)
        [⟨"junk.pdf", false⟩] = some ["junk.pdf"] := by
  constructor
  · intro now auto events deleteOk files
    obtain ⟨n, hn⟩ := cleanup_dry_run_shape
      (get_file_age_from_name now) LOCAL_RETENTION_DAYS MAX_LOCAL_FILES auto
      events deleteOk (files.map (·.name))
    simp [cli_local_cleanup_delete_calls, hn, cleanup_invalid_files]
  · decide

/-- Calibration of the day-number model: the epoch day 0 is 1970-01-01,
2025-01-06 was a Monday (weekday 0) and 2025-01-05 a Sunday (weekday 6),
and day differences cross month ends correctly in both common and leap
years. -/
lemma daysFromCivil_calibration :
    daysFromCivil ⟨1970, 1, 1⟩ = 0 ∧
    pyWeekday (daysFromCivil ⟨2025, 1, 6⟩) = 0 ∧
    pyWeekday (daysFromCivil ⟨2025, 1, 5⟩) = 6 ∧
    daysFromCivil ⟨2025, 3, 1⟩ - daysFromCivil ⟨2025, 2, 28⟩ = 1 ∧
    daysFromCivil ⟨2024, 3, 1⟩ - daysFromCivil ⟨2024, 2, 28⟩ = 2 :=
  ⟨by decide, by decide, by decide, by decide, by decide⟩

end Guardian

